import Mathlib

/-!
Shallow embedding of `llama_context_wrapper.cpp` (namespace `llamaandroid`,
class `LlamaContextWrapper`), the session manager of llama-kotlin-android.

The underlying llama.cpp engine is opaque to the wrapper; it is modelled as a
structure of deterministic functions (`Engine`).  Native C float fields of the
configuration are modelled as rationals: the wrapper only compares them
(`!=`, `<`, `>`), never computes with them, so exact comparison is faithful.
Native handles (`llama_model*`, `llama_context*`) become `Option`-valued
fields; `llama_context` state additionally carries the KV/decode history that
`llama_decode` accumulates, and the sampler carries the number of draws made
(the RNG state of `llama_sampler_init_dist` advances once per sample).
The `LLAMA_AVAILABLE` build is the one embedded (the stub branch is
compile-time dead code when the engine is present).
-/

/-- `llama_token` is a 32-bit integer id; modelled as `Int`. -/
abbrev Token := Int

/-- Fields of `LlamaConfig` used by `llama_context_wrapper.cpp`.
Integer fields are `Int` (C `int`), float fields are `Rat`, flags `Bool`. -/
structure LlamaConfig where
  contextSize : Int
  batchSize : Int
  threads : Int
  threadsBatch : Int
  gpuLayers : Int
  useMmap : Bool
  useMlock : Bool
  maxTokens : Int
  temperature : Rat
  topK : Int
  topP : Rat
  repeatPenalty : Rat
  seed : Int
  deriving DecidableEq, Repr

/-- `llama_model_params` fields the wrapper sets (loadModel, lines 52-55). -/
structure ModelParams where
  nGpuLayers : Int
  useMmap : Bool
  useMlock : Bool
  deriving DecidableEq, Repr

/-- `llama_context_params` fields the wrapper sets (loadModel, lines 71-75). -/
structure CtxParams where
  nCtx : Int
  nBatch : Int
  nThreads : Int
  nThreadsBatch : Int
  deriving DecidableEq, Repr

def mkModelParams (config : LlamaConfig) : ModelParams :=
  { nGpuLayers := config.gpuLayers
    useMmap := config.useMmap
    useMlock := config.useMlock }

def mkCtxParams (config : LlamaConfig) : CtxParams :=
  { nCtx := config.contextSize
    nBatch := config.batchSize
    nThreads := config.threads
    nThreadsBatch := config.threadsBatch }

/-- One stage of a `llama_sampler` chain, as appended by `setupSampler`. -/
inductive SamplerStage where
  | penalties (lastN : Int) (penaltyRepeat freq present : Rat)
  | topK (k : Int)
  | topP (p : Rat) (minKeep : Int)
  | temp (t : Rat)
  | dist (seed : Nat)
  deriving DecidableEq, Repr

/-- `static_cast<uint32_t>` of a C integer value. -/
def toUInt32 (i : Int) : Nat := (i % (2 ^ 32)).toNat

/-- `LlamaContextWrapper::setupSampler` (lines 394-439): builds the sampler
chain by sequential `llama_sampler_chain_add` calls.  `wallClock` is the value
`std::time(nullptr)` would return, used only when `config.seed < 0`. -/
def setupSampler (config : LlamaConfig) (wallClock : Int) : List SamplerStage :=
  let s : List SamplerStage := []
  let s := if config.repeatPenalty ≠ (1 : Rat) then
    s ++ [SamplerStage.penalties 64 config.repeatPenalty 0 0] else s
  let s := if config.topK > 0 then s ++ [SamplerStage.topK config.topK] else s
  let s := if config.topP < (1 : Rat) then s ++ [SamplerStage.topP config.topP 1] else s
  let s := if config.temperature > (0 : Rat) then
    s ++ [SamplerStage.temp config.temperature] else s
  s ++ [SamplerStage.dist (toUInt32 (if config.seed ≥ 0 then config.seed else wallClock))]

/-- A batch entry decoded into the context: (token id, position).  The wrapper
always uses sequence slot 0 and sets the logits flag as described in the
generation loop, so only id and position are tracked in the history. -/
abbrev BEntry := Token × Int

/-- The live `llama_context`: its context-window size (`llama_n_ctx`) and the
KV/decode history accumulated by successful `llama_decode` calls. -/
structure CtxHandle where
  nCtx : Int
  history : List BEntry
  deriving DecidableEq, Repr

/-- The live sampler chain plus its mutable RNG position: the distribution
stage's RNG advances once per `llama_sampler_sample`; a fresh `setupSampler`
resets it. -/
structure SamplerHandle where
  chain : List SamplerStage
  draws : Nat
  deriving DecidableEq, Repr

/-- The opaque llama.cpp engine, as a record of deterministic functions.
`tokenizeRc cap` is the return code of `llama_tokenize` called with a buffer
of capacity `cap`; `tokenizeBuf cap` is the buffer content it writes (length
`cap`).  `sample` draws a token from the current logits, which depend on the
whole decode history, the sampler chain and the number of draws already made.
`decodeRc` is the return code of `llama_decode` given the current history and
the submitted batch. -/
structure Engine where
  loadModelFromFile : String → ModelParams → Option Nat
  initFromModel : Nat → CtxParams → Bool
  tokenizeRc : Nat → Bool → String → Nat → Int
  tokenizeBuf : Nat → Bool → String → Nat → List Token
  pieceOf : Nat → Token → Option String
  isEog : Nat → Token → Bool
  decodeRc : List BEntry → List BEntry → Int
  sample : List SamplerStage → Nat → List BEntry → Token

/-- The member state of one `LlamaContextWrapper` session. -/
structure SessionState where
  model : Option Nat
  context : Option CtxHandle
  sampler : Option SamplerHandle
  currentConfig : LlamaConfig
  lastError : String
  isGenerating : Bool
  shouldCancel : Bool
  deriving DecidableEq, Repr

/-- Default `LlamaConfig` used by the freshly constructed session. -/
def defaultConfig : LlamaConfig :=
  { contextSize := 2048, batchSize := 512, threads := 4, threadsBatch := 4
    gpuLayers := 0, useMmap := true, useMlock := false, maxTokens := 256
    temperature := 8/10, topK := 40, topP := 95/100, repeatPenalty := 11/10
    seed := -1 }

/-- State of a freshly constructed `LlamaContextWrapper`: no handles, no
error, not generating. -/
def initialState : SessionState :=
  { model := none, context := none, sampler := none
    currentConfig := defaultConfig, lastError := "", isGenerating := false
    shouldCancel := false }

/-- `isModelLoaded` (lines 136-142, `LLAMA_AVAILABLE` branch): true iff both
the model and the context handle are present. -/
def isModelLoaded (st : SessionState) : Bool :=
  st.model.isSome && st.context.isSome

/-- `setError` (lines 318-321): overwrite the last-error slot. -/
def setError (st : SessionState) (e : String) : SessionState :=
  { st with lastError := e }

/-- `clearError` (lines 323-325): empty the last-error slot. -/
def clearErrorOp (st : SessionState) : SessionState :=
  { st with lastError := "" }

/-- Which native handle a `llama_*_free` call released, for tracking the
teardown order of `unloadModel`. -/
inductive FreeEvent where
  | sampler
  | context
  | model
  deriving DecidableEq, Repr

/-- `unloadModel` (lines 107-134): frees the sampler, then the context, then
the model, each only if present.  Returns the new state together with the
ordered list of the frees performed.  Does not touch the error slot. -/
def unloadModel (st : SessionState) : SessionState × List FreeEvent :=
  let (st, e1) := if st.sampler.isSome
    then ({ st with sampler := none }, [FreeEvent.sampler]) else (st, [])
  let (st, e2) := if st.context.isSome
    then ({ st with context := none }, [FreeEvent.context]) else (st, [])
  let (st, e3) := if st.model.isSome
    then ({ st with model := none }, [FreeEvent.model]) else (st, [])
  (st, e1 ++ e2 ++ e3)

/-- `cancelGeneration` (lines 294-297): sets the cancel flag, nothing else. -/
def cancelGeneration (st : SessionState) : SessionState :=
  { st with shouldCancel := true }

/-- `tokenize` (lines 329-368): first call with a buffer of
`text.length / 4 + 16` entries; on a negative return code resize once to the
reported requirement and retry; on a second failure return the empty list;
otherwise return exactly the reported number of ids from the buffer. -/
def tokenize (eng : Engine) (m : Nat) (text : String) (addBos : Bool) : List Token :=
  let est := text.length / 4 + 16
  let n1 := eng.tokenizeRc m addBos text est
  if n1 < 0 then
    let cap2 := (-n1).toNat
    let n2 := eng.tokenizeRc m addBos text cap2
    if n2 < 0 then []
    else (eng.tokenizeBuf m addBos text cap2).take n2.toNat
  else (eng.tokenizeBuf m addBos text est).take n1.toNat

/-- `detokenize` (lines 371-392): convert each token to its piece, skipping
tokens the engine fails on, concatenating the successes in order. -/
def detokenize (eng : Engine) (m : Nat) (tokens : List Token) : String :=
  tokens.foldl (fun r t =>
    match eng.pieceOf m t with
    | some s => r ++ s
    | none => r) ""

/-- `loadModel` (lines 38-105, `LLAMA_AVAILABLE` branch).  Clears the error
slot, unloads any existing model, builds the parameter records from the
config, loads the model (failure: record error, return false), creates the
context (failure: free the just-loaded model, record error, return false),
rebuilds the sampler, stores the config, returns true. -/
def loadModel (eng : Engine) (st : SessionState) (modelPath : String)
    (config : LlamaConfig) (wallClock : Int) : SessionState × Bool :=
  let st := clearErrorOp st
  let st := if st.model.isSome then (unloadModel st).1 else st
  match eng.loadModelFromFile modelPath (mkModelParams config) with
  | none => (setError st ("Failed to load model from: " ++ modelPath), false)
  | some m =>
    if eng.initFromModel m (mkCtxParams config) then
      ({ st with
          model := some m
          context := some { nCtx := config.contextSize, history := [] }
          sampler := some { chain := setupSampler config wallClock, draws := 0 }
          currentConfig := config }, true)
    else
      (setError { st with model := none } "Failed to create llama context", false)

/-- Result of the token-generation loop: final decode history, final RNG
position, the error recorded by an in-loop decode failure (if any), and the
accumulated callback state. -/
structure LoopOut (σ : Type) where
  history : List BEntry
  draws : Nat
  loopError : Option String
  acc : σ

/-- The generation loop of `generateStream` (lines 236-269), parametrised by
the token callback.  `fuel` is the remaining iteration budget
(`cfg.maxTokens - n_generated`).  Each iteration samples a token, stops on an
end-of-generation token, otherwise detokenizes and emits it to the callback,
then decodes a single-token batch at position `nCur`; a decode failure records
an error and stops (the token already emitted is retained).  The cancel flag,
reset to false at the start of the call and only ever set by another thread,
stays false for the whole of a sequential run and is therefore not a loop
parameter. -/
def genLoop {σ : Type} (eng : Engine) (m : Nat) (chain : List SamplerStage)
    (cb : σ → String → σ) :
    Nat → List BEntry → Nat → Int → σ → LoopOut σ
  | 0, history, draws, _, acc =>
    { history := history, draws := draws, loopError := none, acc := acc }
  | fuel + 1, history, draws, nCur, acc =>
    let newToken := eng.sample chain draws history
    let draws := draws + 1
    if eng.isEog m newToken then
      { history := history, draws := draws, loopError := none, acc := acc }
    else
      let tokenStr := detokenize eng m [newToken]
      let acc := cb acc tokenStr
      let batch : List BEntry := [(newToken, nCur)]
      if eng.decodeRc history batch ≠ 0 then
        { history := history, draws := draws
          loopError := some "Failed to decode token", acc := acc }
      else
        genLoop eng m chain cb fuel (history ++ batch) draws (nCur + 1) acc

/-- The batch entries written for the prompt (lines 204-217): token `i` of the
prompt at position `i`, sequence slot 0, logits flag only on the last. -/
def promptEntries (promptTokens : List Token) : List BEntry :=
  promptTokens.enum.map (fun p => (p.2, (p.1 : Int)))

/-- `generateStream` (lines 154-292, `LLAMA_AVAILABLE` branch), parametrised
by the token callback `cb` and its initial accumulator `a0` (the C++ callback
closes over mutable state; here that state is threaded explicitly).
`wallClock` feeds `setupSampler` when a per-call config override with a
negative seed is supplied.  Returns the session state after the call and the
final accumulator. -/
def generateStreamCb {σ : Type} (eng : Engine) (cb : σ → String → σ) (a0 : σ)
    (st : SessionState) (prompt : String) (configOv : Option LlamaConfig)
    (wallClock : Int) : SessionState × σ :=
  let st := clearErrorOp st
  match st.model, st.context with
  | some m, some ctx =>
    let cfg := configOv.getD st.currentConfig
    let st := { st with isGenerating := true, shouldCancel := false }
    let st := match configOv with
      | some c => { st with
          sampler := some { chain := setupSampler c wallClock, draws := 0 } }
      | none => st
    let promptTokens := tokenize eng m prompt true
    if promptTokens.isEmpty then
      ({ setError st "Failed to tokenize prompt" with isGenerating := false }, a0)
    else
      let nCtx := ctx.nCtx
      if (promptTokens.length : Int) > nCtx - 4 then
        ({ setError st "Prompt too long for context size" with
            isGenerating := false }, a0)
      else
        let batch := promptEntries promptTokens
        if eng.decodeRc ctx.history batch ≠ 0 then
          ({ setError st "Failed to process prompt" with isGenerating := false }, a0)
        else
          let history := ctx.history ++ batch
          let nCur : Int := promptTokens.length
          let smp := st.sampler.getD { chain := [], draws := 0 }
          let out := genLoop eng m smp.chain cb cfg.maxTokens.toNat
            history smp.draws nCur a0
          let st := match out.loopError with
            | some e => setError st e
            | none => st
          ({ st with
              context := some { ctx with history := out.history }
              sampler := some { chain := smp.chain, draws := out.draws }
              isGenerating := false }, out.acc)
  | _, _ => (setError st "Model not loaded", a0)

/-- `generateStream` observed through a trace-collecting callback: the second
component lists, in order, exactly the token strings passed to the callback. -/
def generateStreamTrace (eng : Engine) (st : SessionState) (prompt : String)
    (configOv : Option LlamaConfig) (wallClock : Int) :
    SessionState × List String :=
  generateStreamCb eng (fun l s => l ++ [s]) [] st prompt configOv wallClock

/-- `generate` (lines 144-152): `generateStream` with a callback appending
each token string to an accumulator string. -/
def generate (eng : Engine) (st : SessionState) (prompt : String)
    (configOv : Option LlamaConfig) (wallClock : Int) :
    SessionState × String :=
  generateStreamCb eng (fun r s => r ++ s) "" st prompt configOv wallClock

/-! ### Concrete engine instances and states used as evaluation inputs -/

/-- A benign deterministic engine: every load succeeds, every prompt
tokenizes to the single token `7`, no token is end-of-generation, decoding
always succeeds, and the sampled token is the length of the decode history
(so sampling is sensitive to accumulated KV state). -/
def engA : Engine :=
  { loadModelFromFile := fun _ _ => some 0
    initFromModel := fun _ _ => true
    tokenizeRc := fun _ _ _ cap => min (cap : Int) 1
    tokenizeBuf := fun _ _ _ cap => List.replicate cap 7
    pieceOf := fun _ t => some (if t ≤ 1 then "a" else "b")
    isEog := fun _ _ => false
    decodeRc := fun _ _ => 0
    sample := fun _ _ history => (history.length : Int) }

/-- An engine whose model load succeeds but whose context creation fails. -/
def engB : Engine :=
  { engA with
    loadModelFromFile := fun _ _ => some 3
    initFromModel := fun _ _ => false }

/-- An engine whose tokenizer always reports failure. -/
def engC : Engine :=
  { engA with tokenizeRc := fun _ _ _ _ => -1 }

/-- A well-behaved tokenizer engine, as the `llama_tokenize` C contract
guarantees: the buffer it writes has exactly the requested capacity, and a
non-negative return code never exceeds that capacity. -/
def EngineTokOK (eng : Engine) : Prop :=
  ∀ m addBos text cap,
    (eng.tokenizeBuf m addBos text cap).length = cap ∧
    (0 ≤ eng.tokenizeRc m addBos text cap →
      (eng.tokenizeRc m addBos text cap).toNat ≤ cap)

/-- Capacity of the prompt batch: `llama_batch_init(cfg.batchSize, 0, 1)`
(line 201) allocates its arrays with `cfg.batchSize` entries. -/
def batchCapacity (cfg : LlamaConfig) : Int := cfg.batchSize

/-- The array indices written while filling the prompt batch (lines 204-217):
one write at index `i` for each prompt token `i`. -/
def promptWriteIndices (promptTokens : List Token) : List Nat :=
  List.range (promptEntries promptTokens).length

/-- All prompt-batch writes land inside the allocated capacity. -/
def promptWritesInBounds (cfg : LlamaConfig) (promptTokens : List Token) : Prop :=
  ∀ i ∈ promptWriteIndices promptTokens, (i : Int) < batchCapacity cfg

/-- The only size check `generateStream` performs before filling the batch
(lines 188-195): the token count may not exceed `n_ctx - 4`. -/
def passesCtxCheck (nCtx : Int) (promptTokens : List Token) : Prop :=
  ¬ ((promptTokens.length : Int) > nCtx - 4)

/-- A deterministic configuration: fixed non-negative seed, no stochastic
stages beyond the seeded distribution stage, one generated token per call. -/
def cfgD : LlamaConfig :=
  { contextSize := 16, batchSize := 8, threads := 1, threadsBatch := 1
    gpuLayers := 0, useMmap := true, useMlock := false, maxTokens := 1
    temperature := 0, topK := 0, topP := 1, repeatPenalty := 1, seed := 42 }

/-- A session freshly and successfully loaded on `engA` with `cfgD`. -/
def stLoaded : SessionState :=
  (loadModel engA initialState "model.gguf" cfgD 0).1

/-- A loaded session whose context window is below the 4-token margin. -/
def stTiny : SessionState :=
  { initialState with
      model := some 0
      context := some { nCtx := 2, history := [] }
      sampler := some { chain := [], draws := 0 } }

/-! ### C8: unloadModel -/

/-- Claim C8: `unloadModel` is idempotent (a second call changes nothing and
frees nothing, including on a never-loaded session), never fails (it records
no error), and frees the sampler chain, then the context, then the model,
each only if present, in that strict order. -/
theorem unloadModel_spec (st : SessionState) :
    (unloadModel st).1 = { st with sampler := none, context := none, model := none } ∧
    (unloadModel st).1.lastError = st.lastError ∧
    (unloadModel st).2 =
      (if st.sampler.isSome then [FreeEvent.sampler] else []) ++
      (if st.context.isSome then [FreeEvent.context] else []) ++
      (if st.model.isSome then [FreeEvent.model] else []) ∧
    unloadModel (unloadModel st).1 = ((unloadModel st).1, []) ∧
    unloadModel { st with sampler := none, context := none, model := none } =
      ({ st with sampler := none, context := none, model := none }, []) := by
  obtain ⟨mo, co, sa, cc, le, ig, sc⟩ := st
  cases sa <;> cases co <;> cases mo <;> simp [unloadModel]

/-! ### C6: setupSampler -/

/-- Claim C6: for every configuration, the sampler chain built by
`setupSampler` is exactly, in this fixed order: a repetition-penalty stage
over the last 64 tokens with frequency and presence penalties zero iff
`repeatPenalty ≠ 1.0`; a top-K stage iff `topK > 0`; a top-P stage iff
`topP < 1.0`; a temperature stage iff `temperature > 0.0`; and always a final
distribution stage seeded with the configured seed when it is non-negative
and with the wall-clock value otherwise. -/
theorem setupSampler_spec (config : LlamaConfig) (wallClock : Int) :
    setupSampler config wallClock =
      (if config.repeatPenalty ≠ (1 : Rat) then
        [SamplerStage.penalties 64 config.repeatPenalty 0 0] else []) ++
      (if config.topK > 0 then [SamplerStage.topK config.topK] else []) ++
      (if config.topP < (1 : Rat) then [SamplerStage.topP config.topP 1] else []) ++
      (if config.temperature > (0 : Rat) then
        [SamplerStage.temp config.temperature] else []) ++
      [SamplerStage.dist
        (toUInt32 (if config.seed ≥ 0 then config.seed else wallClock))] ∧
    (setupSampler config wallClock).getLast? =
      some (SamplerStage.dist
        (toUInt32 (if config.seed ≥ 0 then config.seed else wallClock))) := by
  unfold setupSampler
  refine ⟨?_, ?_⟩ <;> split_ifs <;> simp

/-! ### C2: generation before a successful load -/

/-- Claim C2: when the session is not loaded (no successful `loadModel` has
occurred, so model or context handle is absent), `generate` and
`generateStream` fail with the not-loaded error, emit no tokens, and change
nothing in the state except the error slot — in particular `isGenerating`
keeps its value (false on any never-loaded session). -/
theorem generateStream_notLoaded (eng : Engine) (st : SessionState)
    (prompt : String) (configOv : Option LlamaConfig) (wallClock : Int)
    (h : isModelLoaded st = false) :
    generateStreamTrace eng st prompt configOv wallClock =
      ({ st with lastError := "Model not loaded" }, []) ∧
    generate eng st prompt configOv wallClock =
      ({ st with lastError := "Model not loaded" }, "") ∧
    (generateStreamTrace eng st prompt configOv wallClock).1.isGenerating =
      st.isGenerating := by
  obtain ⟨mo, co, sa, cc, le, ig, sc⟩ := st
  cases mo <;> cases co <;>
    simp_all [generateStreamTrace, generate, generateStreamCb, clearErrorOp,
      setError, isModelLoaded]

/-- Witness for C2 at the freshly constructed session and the engine `engA`. -/
theorem generateStream_notLoaded_witness :
    isModelLoaded initialState = false ∧
    generateStreamTrace engA initialState "hi" none 0 =
      ({ initialState with lastError := "Model not loaded" }, []) :=
  ⟨by decide,
    (generateStream_notLoaded engA initialState "hi" none 0 (by decide)).1⟩

/-! ### C4: loadModel failure leaves the session Unloaded -/

/-- Claim C4: if the model loads but context creation fails, `loadModel`
frees the just-loaded model handle, records the context error, and returns
failure; and every failing `loadModel` leaves no model handle and leaves the
session not loaded. -/
theorem loadModel_failure_spec (eng : Engine) (st : SessionState)
    (modelPath : String) (config : LlamaConfig) (wallClock : Int) :
    (∀ m, eng.loadModelFromFile modelPath (mkModelParams config) = some m →
      eng.initFromModel m (mkCtxParams config) = false →
      loadModel eng st modelPath config wallClock =
        (setError
          { (if st.model.isSome then (unloadModel (clearErrorOp st)).1
             else clearErrorOp st) with model := none }
          "Failed to create llama context", false) ∧
      (loadModel eng st modelPath config wallClock).1.model = none ∧
      (loadModel eng st modelPath config wallClock).1.lastError =
        "Failed to create llama context" ∧
      isModelLoaded (loadModel eng st modelPath config wallClock).1 = false) ∧
    ((loadModel eng st modelPath config wallClock).2 = false →
      (loadModel eng st modelPath config wallClock).1.model = none ∧
      isModelLoaded (loadModel eng st modelPath config wallClock).1 = false) := by
  constructor
  · intro m h1 h2
    obtain ⟨mo, co, sa, cc, le, ig, sc⟩ := st
    cases mo <;> cases co <;> cases sa <;>
      simp_all [loadModel, unloadModel, clearErrorOp, setError, isModelLoaded]
  · intro hfail
    obtain ⟨mo, co, sa, cc, le, ig, sc⟩ := st
    rcases heq : eng.loadModelFromFile modelPath (mkModelParams config) with _ | m
    · cases mo <;> cases co <;> cases sa <;>
        simp_all [loadModel, unloadModel, clearErrorOp, setError, isModelLoaded]
    · rcases hinit : eng.initFromModel m (mkCtxParams config) with _ | _
      · cases mo <;> cases co <;> cases sa <;>
          simp_all [loadModel, unloadModel, clearErrorOp, setError, isModelLoaded]
      · exfalso
        cases mo <;> cases co <;> cases sa <;>
          simp_all [loadModel, unloadModel, clearErrorOp, setError, isModelLoaded]

/-- Witness for C4: a concrete engine whose context creation fails. -/
theorem loadModel_failure_witness :
    engB.loadModelFromFile "m.gguf" (mkModelParams defaultConfig) = some 3 ∧
    engB.initFromModel 3 (mkCtxParams defaultConfig) = false ∧
    (loadModel engB initialState "m.gguf" defaultConfig 0).1.model = none ∧
    (loadModel engB initialState "m.gguf" defaultConfig 0).1.lastError =
      "Failed to create llama context" ∧
    isModelLoaded (loadModel engB initialState "m.gguf" defaultConfig 0).1 = false := by
  refine ⟨by decide, by decide, ?_⟩
  have h := (loadModel_failure_spec engB initialState "m.gguf" defaultConfig 0).1
    3 (by decide) (by decide)
  exact ⟨h.2.1, h.2.2.1, h.2.2.2⟩

/-! ### C10: the last-error slot -/

/-- Counterexample to claim C10: `unloadModel` and `cancelGeneration` are
public operations, yet neither clears the last-error slot at its start —
after a successful `unloadModel` on a session whose slot holds "boom" the
slot still holds "boom", not the empty string. -/
theorem errorSlot_clear_cx :
    (unloadModel { initialState with lastError := "boom" }).1.lastError = "boom" ∧
    (cancelGeneration { initialState with lastError := "boom" }).lastError = "boom" ∧
    ("boom" : String) ≠ "" := by
  refine ⟨rfl, rfl, by decide⟩

/-- Claim C10 as amended: `loadModel` and `generate`/`generateStream` clear
the last-error slot at their start (their outcome is independent of the
incoming slot content), a successful `loadModel` leaves the slot empty and a
failing one overwrites it with a non-empty message; but `unloadModel` and
`cancelGeneration` leave the slot untouched. -/
theorem errorSlot_spec (eng : Engine) (st : SessionState) (modelPath : String)
    (config : LlamaConfig) (configOv : Option LlamaConfig) (prompt : String)
    (wallClock : Int) (e : String) :
    loadModel eng { st with lastError := e } modelPath config wallClock =
      loadModel eng { st with lastError := "" } modelPath config wallClock ∧
    generateStreamTrace eng { st with lastError := e } prompt configOv wallClock =
      generateStreamTrace eng { st with lastError := "" } prompt configOv wallClock ∧
    generate eng { st with lastError := e } prompt configOv wallClock =
      generate eng { st with lastError := "" } prompt configOv wallClock ∧
    (unloadModel st).1.lastError = st.lastError ∧
    (cancelGeneration st).lastError = st.lastError ∧
    ((loadModel eng st modelPath config wallClock).2 = true →
      (loadModel eng st modelPath config wallClock).1.lastError = "") ∧
    ((loadModel eng st modelPath config wallClock).2 = false →
      (loadModel eng st modelPath config wallClock).1.lastError ≠ "") := by
  have hmsg : ∀ p : String, "Failed to load model from: " ++ p ≠ "" := by
    intro p h
    have h2 := congrArg String.data h
    simp at h2
  obtain ⟨mo, co, sa, cc, le, ig, sc⟩ := st
  refine ⟨rfl, rfl, rfl, ?_, rfl, ?_, ?_⟩
  · cases sa <;> cases co <;> cases mo <;> simp [unloadModel]
  all_goals
    rcases heq : eng.loadModelFromFile modelPath (mkModelParams config) with _ | m <;>
      cases mo <;> cases co <;> cases sa <;>
      simp_all [loadModel, unloadModel, clearErrorOp, setError] <;>
      split_ifs <;> simp_all

/-- Witness for the amended C10: a successful load on `engA` leaves the
last-error slot empty. -/
theorem errorSlot_spec_witness :
    (loadModel engA initialState "m.gguf" defaultConfig 0).2 = true ∧
    (loadModel engA initialState "m.gguf" defaultConfig 0).1.lastError = "" :=
  ⟨by decide,
    (errorSlot_spec engA initialState "m.gguf" defaultConfig none "p" 0
      "x").2.2.2.2.2.1 (by decide)⟩

/-! ### C9: tokenize -/

/-- Claim C9: `tokenize` first calls the engine tokenizer with a buffer of
`text.length / 4 + 16` entries; a non-negative result yields exactly that
many ids from the buffer; a negative result triggers exactly one retry with
the buffer resized to the reported requirement; a second negative result
yields the empty sequence, otherwise exactly the reported number of ids. -/
theorem tokenize_spec (eng : Engine) (m : Nat) (text : String) (addBos : Bool)
    (hok : EngineTokOK eng) :
    (0 ≤ eng.tokenizeRc m addBos text (text.length / 4 + 16) →
      tokenize eng m text addBos =
        (eng.tokenizeBuf m addBos text (text.length / 4 + 16)).take
          (eng.tokenizeRc m addBos text (text.length / 4 + 16)).toNat ∧
      (tokenize eng m text addBos).length =
        (eng.tokenizeRc m addBos text (text.length / 4 + 16)).toNat) ∧
    (eng.tokenizeRc m addBos text (text.length / 4 + 16) < 0 →
      (0 ≤ eng.tokenizeRc m addBos text
          (-(eng.tokenizeRc m addBos text (text.length / 4 + 16))).toNat →
        tokenize eng m text addBos =
          (eng.tokenizeBuf m addBos text
            (-(eng.tokenizeRc m addBos text (text.length / 4 + 16))).toNat).take
            (eng.tokenizeRc m addBos text
              (-(eng.tokenizeRc m addBos text (text.length / 4 + 16))).toNat).toNat ∧
        (tokenize eng m text addBos).length =
          (eng.tokenizeRc m addBos text
            (-(eng.tokenizeRc m addBos text (text.length / 4 + 16))).toNat).toNat) ∧
      (eng.tokenizeRc m addBos text
          (-(eng.tokenizeRc m addBos text (text.length / 4 + 16))).toNat < 0 →
        tokenize eng m text addBos = [])) := by
  have h1 := hok m addBos text (text.length / 4 + 16)
  have h2 := hok m addBos text
    (-(eng.tokenizeRc m addBos text (text.length / 4 + 16))).toNat
  unfold tokenize
  constructor
  · intro hge
    rw [if_neg (by omega)]
    exact ⟨rfl, by rw [List.length_take, h1.1]; omega⟩
  · intro hlt
    rw [if_pos hlt]
    constructor
    · intro hge2
      rw [if_neg (by omega)]
      exact ⟨rfl, by rw [List.length_take, h2.1]; omega⟩
    · intro hlt2
      rw [if_pos hlt2]

/-- The benign engine `engA` satisfies the tokenizer contract. -/
theorem engA_tokOK : EngineTokOK engA := by
  intro m addBos text cap
  refine ⟨by simp [engA], ?_⟩
  intro _
  simp only [engA]
  omega

/-- Witness for C9 at the engine `engA` and the input "hi": one call, no
retry, exactly the reported number of ids. -/
theorem tokenize_spec_witness :
    0 ≤ engA.tokenizeRc 0 true "hi" (String.length "hi" / 4 + 16) ∧
    tokenize engA 0 "hi" true =
      (engA.tokenizeBuf 0 true "hi" (String.length "hi" / 4 + 16)).take
        (engA.tokenizeRc 0 true "hi" (String.length "hi" / 4 + 16)).toNat :=
  ⟨by decide, ((tokenize_spec engA 0 "hi" true engA_tokOK).1 (by decide)).1⟩

/-! ### C3: prompt-batch bounds -/

/-- Claim C3: the prompt loop writes one batch entry per prompt token into a
batch allocated with `batchSize` entries; for a non-empty prompt these writes
all stay in bounds exactly when the token count is at most `batchSize`, and
the only check performed — the `n_ctx - 4` context bound — does not imply
this: there are configurations and prompts that pass the check yet write out
of bounds. -/
theorem promptBatch_bounds (cfg : LlamaConfig) (promptTokens : List Token)
    (hne : promptTokens ≠ []) :
    ((promptEntries promptTokens).length = promptTokens.length) ∧
    (promptWritesInBounds cfg promptTokens ↔
      (promptTokens.length : Int) ≤ cfg.batchSize) ∧
    (∃ cfg2 : LlamaConfig, ∃ ts : List Token, ts ≠ [] ∧
      passesCtxCheck cfg2.contextSize ts ∧ ¬ promptWritesInBounds cfg2 ts) := by
  refine ⟨by simp [promptEntries], ?_, ?_⟩
  · unfold promptWritesInBounds promptWriteIndices batchCapacity
    simp only [List.mem_range, promptEntries, List.length_map, List.enum_length]
    constructor
    · intro h
      have hlen : 0 < promptTokens.length := List.length_pos.mpr hne
      have := h (promptTokens.length - 1) (by omega)
      omega
    · intro h i hi
      omega
  · refine ⟨{ defaultConfig with batchSize := 0, contextSize := 2048 }, [5],
      by decide, ?_, ?_⟩
    · unfold passesCtxCheck
      decide
    · unfold promptWritesInBounds promptWriteIndices batchCapacity promptEntries
      intro h
      have := h 0 (by decide)
      revert this
      decide

/-- Witness for C3 at a one-token prompt and the default configuration. -/
theorem promptBatch_bounds_witness :
    ([5] : List Token) ≠ [] ∧
    (promptWritesInBounds defaultConfig [5] ↔
      ((([5] : List Token).length : Int) ≤ defaultConfig.batchSize)) :=
  ⟨by decide, (promptBatch_bounds defaultConfig [5] (by decide)).2.1⟩

/-! ### C7: prompt capacity check -/

/-- Counterexample to claim C7 as stated: on a loaded session whose context
window is 2, a prompt whose tokenization fails (yielding 0 tokens, and
0 > 2 - 4 so the claim's hypothesis holds) fails with the tokenization
error, not the capacity error. -/
theorem generateStream_capacity_cx :
    isModelLoaded stTiny = true ∧
    ((tokenize engC 0 "p" true).length : Int) >
      ((stTiny.context.getD { nCtx := 0, history := [] }).nCtx) - 4 ∧
    (generateStreamTrace engC stTiny "p" none 0).1.lastError =
      "Failed to tokenize prompt" ∧
    ("Failed to tokenize prompt" : String) ≠ "Prompt too long for context size" := by
  decide

/-- Claim C7 as amended: for every loaded session and prompt whose
tokenization yields a NON-EMPTY sequence of more than (context window - 4)
tokens, generation fails with "Prompt too long for context size", emits zero
tokens, ends with `isGenerating` false, and leaves the context untouched.
(When tokenization yields zero tokens the earlier tokenization-failure check
fires instead, which is the only deviation from the claim as stated.) -/
theorem generateStream_capacity (eng : Engine) (st : SessionState) (m : Nat)
    (ctx : CtxHandle) (prompt : String) (configOv : Option LlamaConfig)
    (wallClock : Int) (hm : st.model = some m) (hc : st.context = some ctx)
    (hne : tokenize eng m prompt true ≠ [])
    (hlen : ((tokenize eng m prompt true).length : Int) > ctx.nCtx - 4) :
    (generateStreamTrace eng st prompt configOv wallClock).2 = [] ∧
    (generateStreamTrace eng st prompt configOv wallClock).1.lastError =
      "Prompt too long for context size" ∧
    (generateStreamTrace eng st prompt configOv wallClock).1.isGenerating = false ∧
    (generateStreamTrace eng st prompt configOv wallClock).1.context = st.context := by
  obtain ⟨mo, co, sa, cc, le, ig, sc⟩ := st
  simp only at hm hc
  subst hm hc
  cases configOv <;>
    simp [generateStreamTrace, generateStreamCb, clearErrorOp, setError,
      List.isEmpty_iff, hne, hlen]

/-- Witness for the amended C7: `engA` tokenizes "hi" to one token, which
exceeds the window bound 2 - 4 of `stTiny`. -/
theorem generateStream_capacity_witness :
    tokenize engA 0 "hi" true ≠ [] ∧
    ((tokenize engA 0 "hi" true).length : Int) >
      (CtxHandle.mk 2 []).nCtx - 4 ∧
    (generateStreamTrace engA stTiny "hi" none 0).2 = [] ∧
    (generateStreamTrace engA stTiny "hi" none 0).1.lastError =
      "Prompt too long for context size" :=
  have h := generateStream_capacity engA stTiny 0 (CtxHandle.mk 2 []) "hi" none 0
    rfl rfl (by decide) (by decide)
  ⟨by decide, by decide, h.1, h.2.1⟩

/-! ### C1: determinism of successive generations -/

/-- Claim C1 evaluated at a failing input: on the deterministic engine `engA`
(every engine operation is a pure function) and the freshly loaded session
`stLoaded` with fixed configuration `cfgD` (seed 42 ≥ 0), two successive
`generateStream` calls on the same prompt produce DIFFERENT token sequences:
the first call leaves its prompt and generated token in the context's decode
history (the comment at line 197 wrongly assumes the KV cache is empty for a
new generation, and nothing resets it or the sampler RNG state between
calls), so the second call samples from a different context state. -/
theorem generate_determinism_cx :
    isModelLoaded stLoaded = true ∧
    cfgD.seed ≥ 0 ∧
    (generateStreamTrace engA stLoaded "hi" none 0).2 = ["a"] ∧
    (generateStreamTrace engA
      ((generateStreamTrace engA stLoaded "hi" none 0).1) "hi" none 0).2 = ["b"] ∧
    (generateStreamTrace engA stLoaded "hi" none 0).2 ≠
      (generateStreamTrace engA
        ((generateStreamTrace engA stLoaded "hi" none 0).1) "hi" none 0).2 := by
  decide

/-! ### C5: generate is the concatenation of the streamed tokens -/

/-- The trace-collecting generation loop is linear in its accumulator. -/
theorem genLoop_trace_append (eng : Engine) (m : Nat) (chain : List SamplerStage)
    (fuel : Nat) :
    ∀ (history : List BEntry) (draws : Nat) (nCur : Int) (l : List String),
    (genLoop eng m chain (fun l s => l ++ [s]) fuel history draws nCur l).acc =
      l ++ (genLoop eng m chain (fun l s => l ++ [s]) fuel history draws nCur []).acc := by
  induction fuel with
  | zero => intro history draws nCur l; simp [genLoop]
  | succ n ih =>
    intro history draws nCur l
    simp only [genLoop]
    split
    · simp
    · split
      · simp
      · rw [ih, ih _ _ _ ([] ++ [_])]
        simp

/-- Callback fusion for the generation loop: running the loop with any
callback and initial accumulator folds that callback over the emission trace
of the trace-collecting run. -/
theorem genLoop_acc_foldl {σ : Type} (eng : Engine) (m : Nat)
    (chain : List SamplerStage) (cb : σ → String → σ) (fuel : Nat) :
    ∀ (history : List BEntry) (draws : Nat) (nCur : Int) (a : σ),
    (genLoop eng m chain cb fuel history draws nCur a).acc =
      List.foldl cb a
        ((genLoop eng m chain (fun l s => l ++ [s]) fuel history draws nCur []).acc) := by
  induction fuel with
  | zero => intro history draws nCur a; simp [genLoop]
  | succ n ih =>
    intro history draws nCur a
    simp only [genLoop]
    split
    · simp
    · split
      · simp
      · rw [ih, genLoop_trace_append eng m chain n _ _ _ ([] ++ [_])]
        simp

/-- Claim C5: for every engine, session state, prompt, per-call configuration
and wall clock, the string returned by `generate` is exactly the in-order
concatenation of the token strings `generateStream` passes to its callback. -/
theorem generate_eq_join_stream (eng : Engine) (st : SessionState)
    (prompt : String) (configOv : Option LlamaConfig) (wallClock : Int) :
    (generate eng st prompt configOv wallClock).2 =
      String.join (generateStreamTrace eng st prompt configOv wallClock).2 := by
  have hjoin : ∀ l : List String, String.join l = List.foldl (fun r s => r ++ s) "" l :=
    fun l => rfl
  obtain ⟨mo, co, sa, cc, le, ig, sc⟩ := st
  cases mo <;> cases co <;> cases configOv <;>
    simp only [generate, generateStreamTrace, generateStreamCb, clearErrorOp,
      setError] <;>
    (try (simp [hjoin]; done)) <;>
    split_ifs <;>
      first
      | (simp [hjoin]; done)
      | (rw [genLoop_acc_foldl, hjoin])
